import Mathlib

/-!
Verification of the BuLi Bundesliga match-prediction engine.

The definitions below are shallow embeddings of the Python source:
  * `src/models/elo_rating.py`       — ELO rating system
  * `src/models/prediction_engine.py`— factor strengths, weights, lambda derivation
  * `src/models/poisson_model.py`    — Poisson goal model
  * `src/data_sources/betting_odds.py` — odds-derived lambdas

Machine floats are idealised as real numbers; Python dicts of team ratings
become functions `String → Option ℝ`; a raised exception becomes `Except`
(resp. `Option` for a bare `ZeroDivisionError`).
-/

/-! ## ELO rating system (`src/models/elo_rating.py`) -/

/-- State of `ELORatingSystem`: the tunable constants plus the ratings dict
(`None` for a team not present in the dict). -/
structure ELORatingSystem where
  k_factor : ℝ
  home_advantage : ℝ
  base_elo : ℝ
  ratings : String → Option ℝ

/-- `ELORatingSystem.get_rating`: stored rating, or `base_elo` for unseen teams. -/
def get_rating (s : ELORatingSystem) (team : String) : ℝ :=
  (s.ratings team).getD s.base_elo

/-- `ELORatingSystem.expected_score`: `1 / (1 + 10 ** ((rating_b - rating_a) / 400))`. -/
noncomputable def expected_score (rating_a rating_b : ℝ) : ℝ :=
  1 / (1 + (10 : ℝ) ^ ((rating_b - rating_a) / 400))

/-- `ELORatingSystem.get_actual_score`: 1.0 win / 0.5 draw / 0.0 loss. -/
noncomputable def get_actual_score (goals_for goals_against : ℤ) : ℝ :=
  if goals_for > goals_against then 1
  else if goals_for = goals_against then 1/2
  else 0

/-- `ELORatingSystem.get_goal_difference_multiplier`. -/
noncomputable def get_goal_difference_multiplier (goal_diff : ℤ) : ℝ :=
  if goal_diff ≤ 1 then 1
  else if goal_diff = 2 then 3/2
  else (11 + (|goal_diff| : ℤ)) / 8

/-- `ELORatingSystem.update_rating`: returns the new state together with
`(old_rating, new_rating)`.  The Python dict store
`self.ratings[team] = new_rating` becomes a pointwise function update. -/
noncomputable def update_rating (s : ELORatingSystem) (team opponent : String)
    (goals_for goals_against : ℤ) (is_home : Bool) : ELORatingSystem × ℝ × ℝ :=
  let team_rating := get_rating s team
  let opponent_rating := get_rating s opponent
  let team_rating_adjusted :=
    if is_home then team_rating + s.home_advantage else team_rating
  let expected := expected_score team_rating_adjusted opponent_rating
  let actual := get_actual_score goals_for goals_against
  let goal_diff := |goals_for - goals_against|
  let gd_multiplier := get_goal_difference_multiplier goal_diff
  let rating_change := s.k_factor * gd_multiplier * (actual - expected)
  let new_rating := team_rating + rating_change
  ({ s with ratings := fun t => if t = team then some new_rating else s.ratings t },
   team_rating, new_rating)

/-- C8: the goal-difference multiplier is ≥ 1 and monotone in the (non-negative)
goal difference, equals 1 for a difference of 0 or 1, 1.5 for exactly 2, and
`(11 + diff) / 8` for a difference of 3 or more. -/
theorem goal_difference_multiplier_spec :
    (∀ d : ℤ, 0 ≤ d → 1 ≤ get_goal_difference_multiplier d) ∧
    (∀ d d' : ℤ, 0 ≤ d → d ≤ d' →
      get_goal_difference_multiplier d ≤ get_goal_difference_multiplier d') ∧
    get_goal_difference_multiplier 0 = 1 ∧
    get_goal_difference_multiplier 1 = 1 ∧
    get_goal_difference_multiplier 2 = 3/2 ∧
    (∀ d : ℤ, 3 ≤ d → get_goal_difference_multiplier d = (11 + (d : ℝ)) / 8) := by
  have habs : ∀ d : ℤ, 0 ≤ d → |d| = d := fun d hd => abs_of_nonneg hd
  have hval : ∀ d : ℤ, 3 ≤ d → get_goal_difference_multiplier d = (11 + (d : ℝ)) / 8 := by
    intro d hd
    unfold get_goal_difference_multiplier
    rw [if_neg (by omega), if_neg (by omega), habs d (by omega)]
  have hge : ∀ d : ℤ, 0 ≤ d → 1 ≤ get_goal_difference_multiplier d := by
    intro d hd
    unfold get_goal_difference_multiplier
    by_cases h1 : d ≤ 1
    · simp [h1]
    · rw [if_neg h1]
      by_cases h2 : d = 2
      · rw [if_pos h2]; norm_num
      · rw [if_neg h2, habs d hd]
        have h3 : (3 : ℝ) ≤ (d : ℝ) := by exact_mod_cast (by omega : (3:ℤ) ≤ d)
        linarith
  refine ⟨hge, ?_, by unfold get_goal_difference_multiplier; norm_num,
    by unfold get_goal_difference_multiplier; norm_num,
    by unfold get_goal_difference_multiplier; norm_num, hval⟩
  intro d d' hd hdd
  by_cases h1 : d' ≤ 1
  · have : d ≤ 1 := le_trans hdd h1
    unfold get_goal_difference_multiplier
    rw [if_pos this, if_pos h1]
  · by_cases h2 : d' = 2
    · have hd1 : d ≤ 2 := by omega
      unfold get_goal_difference_multiplier
      rcases lt_or_eq_of_le hd1 with h | h
      · rw [if_pos (by omega), if_neg h1, if_pos h2]; norm_num
      · rw [if_neg (by omega), if_pos h, if_neg h1, if_pos h2]
    · have hd'3 : 3 ≤ d' := by omega
      rw [hval d' hd'3]
      by_cases h3 : d ≤ 1
      · calc get_goal_difference_multiplier d = 1 := by
              unfold get_goal_difference_multiplier; rw [if_pos h3]
          _ ≤ (11 + (d' : ℝ)) / 8 := by
              have : (3 : ℝ) ≤ (d' : ℝ) := by exact_mod_cast hd'3
              linarith
      · by_cases h4 : d = 2
        · calc get_goal_difference_multiplier d = 3/2 := by
                unfold get_goal_difference_multiplier; rw [if_neg h3, if_pos h4]
            _ ≤ (11 + (d' : ℝ)) / 8 := by
                have : (3 : ℝ) ≤ (d' : ℝ) := by exact_mod_cast hd'3
                linarith
        · rw [hval d (by omega)]
          have : (d : ℝ) ≤ (d' : ℝ) := by exact_mod_cast hdd
          linarith

/-- C8 witness at difference 3 ≤ 4. -/
theorem goal_difference_multiplier_spec_witness :
    1 ≤ get_goal_difference_multiplier 3 ∧
    get_goal_difference_multiplier 3 ≤ get_goal_difference_multiplier 4 ∧
    get_goal_difference_multiplier 4 = (11 + (4 : ℝ)) / 8 :=
  ⟨goal_difference_multiplier_spec.1 3 (by norm_num),
   goal_difference_multiplier_spec.2.1 3 4 (by norm_num) (by norm_num),
   goal_difference_multiplier_spec.2.2.2.2.2 4 (by norm_num)⟩

/-- C5: `update_rating team opponent …` changes only `team`'s entry of the
ratings dict; the opponent's entry is untouched; the returned pair is
`(old, new)` with `new = old + k * margin_multiplier * (actual − expected)`,
the home-field bonus entering only the expected-score computation, and the
stored rating is exactly `new`. -/
theorem update_rating_frame (s : ELORatingSystem) (team opponent : String)
    (gf ga : ℤ) (is_home : Bool) :
    (∀ t : String, t ≠ team →
      (update_rating s team opponent gf ga is_home).1.ratings t = s.ratings t) ∧
    (opponent ≠ team →
      (update_rating s team opponent gf ga is_home).1.ratings opponent
        = s.ratings opponent) ∧
    (update_rating s team opponent gf ga is_home).2.1 = get_rating s team ∧
    (update_rating s team opponent gf ga is_home).2.2
      = get_rating s team
        + s.k_factor * get_goal_difference_multiplier |gf - ga|
          * (get_actual_score gf ga
             - expected_score
                 (get_rating s team + (if is_home then s.home_advantage else 0))
                 (get_rating s opponent)) ∧
    (update_rating s team opponent gf ga is_home).1.ratings team
      = some ((update_rating s team opponent gf ga is_home).2.2) := by
  refine ⟨?_, ?_, rfl, ?_, ?_⟩
  · intro t ht
    simp [update_rating, ht]
  · intro hop
    simp [update_rating, hop]
  · show get_rating s team + _ = _
    cases is_home <;> simp [expected_score]
  · simp [update_rating]

/-- C5 witness: concrete system, team "A" beats opponent "B" 2:1 at home;
"B"'s entry is unchanged (and the old rating returned is the stored one). -/
theorem update_rating_frame_witness :
    ("B" : String) ≠ "A" ∧
    (update_rating ⟨32, 100, 1500, fun _ => none⟩ "A" "B" 2 1 true).1.ratings "B"
      = (fun _ => (none : Option ℝ)) "B" ∧
    (update_rating ⟨32, 100, 1500, fun _ => none⟩ "A" "B" 2 1 true).2.1
      = get_rating ⟨32, 100, 1500, fun _ => none⟩ "A" :=
  ⟨by decide,
   (update_rating_frame ⟨32, 100, 1500, fun _ => none⟩ "A" "B" 2 1 true).2.1
     (by decide),
   (update_rating_frame ⟨32, 100, 1500, fun _ => none⟩ "A" "B" 2 1 true).2.2.1⟩

/-! ## Prediction engine (`src/models/prediction_engine.py`) -/

/-- The engine's factor-weight dict. -/
structure Weights where
  elo : ℝ
  xg : ℝ
  squad_value : ℝ
  injuries : ℝ
  h2h : ℝ

/-- The default weights set in `BundesligaPredictionEngine.__init__`. -/
noncomputable def default_weights : Weights :=
  ⟨35/100, 30/100, 15/100, 10/100, 10/100⟩

/-- The part of `BundesligaPredictionEngine` state the claims depend on
(the ELO system and Poisson predictor sub-objects are stateless for them). -/
structure Engine where
  weights : Weights

/-- The `ValueError` raised by `set_weights`. -/
inductive ConfigError where
  | invalidWeights
  deriving DecidableEq

/-- `BundesligaPredictionEngine.set_weights`: raises (returns `Except.error`)
iff `|total − 1| > 0.01`, otherwise stores exactly the given components. -/
noncomputable def Engine.set_weights (e : Engine)
    (elo xg squad_value injuries h2h : ℝ) : Except ConfigError Engine :=
  let total := elo + xg + squad_value + injuries + h2h
  if 1/100 < |total - 1| then Except.error ConfigError.invalidWeights
  else Except.ok { e with weights := ⟨elo, xg, squad_value, injuries, h2h⟩ }

/-- `BundesligaPredictionEngine.calculate_elo_strength`. -/
noncomputable def calculate_elo_strength (home_elo away_elo : ℝ) : ℝ × ℝ :=
  let elo_diff := home_elo - away_elo
  let home_strength := 1 / (1 + (10 : ℝ) ^ (-elo_diff / 400))
  (home_strength, 1 - home_strength)

/-- `BundesligaPredictionEngine.calculate_xg_strength`. -/
noncomputable def calculate_xg_strength
    (home_xg_for home_xg_against away_xg_for away_xg_against : ℝ) : ℝ × ℝ :=
  let home_attack := home_xg_for
  let away_defense := away_xg_against
  let away_attack := away_xg_for
  let home_defense := home_xg_against
  let home_strength := (home_attack + away_defense) / 2
  let away_strength := (away_attack + home_defense) / 2
  let total := home_strength + away_strength
  if 0 < total then (home_strength / total, away_strength / total)
  else (home_strength, away_strength)

/-- `BundesligaPredictionEngine.calculate_value_strength`. -/
noncomputable def calculate_value_strength (home_value away_value : ℝ) : ℝ × ℝ :=
  let total_value := home_value + away_value
  if total_value = 0 then (1/2, 1/2)
  else (home_value / total_value, away_value / total_value)

/-- `BundesligaPredictionEngine.calculate_injury_impact`
(`max_impact` defaults to 0.15 in the source). -/
noncomputable def calculate_injury_impact (home_injuries away_injuries : ℕ)
    (max_impact : ℝ := 15/100) : ℝ × ℝ :=
  let injury_penalty_per_player := max_impact / 5
  let home_penalty := min (home_injuries * injury_penalty_per_player) max_impact
  let away_penalty := min (away_injuries * injury_penalty_per_player) max_impact
  (home_penalty, away_penalty)

/-- C4: `set_weights` rejects exactly the weight vectors whose sum differs
from 1 by more than 0.01 (raising, so the stored weights are untouched), and
accepts any vector within the tolerance, storing its components verbatim
(never normalized). -/
theorem set_weights_validation (e : Engine) (elo xg squad_value injuries h2h : ℝ) :
    (1/100 < |elo + xg + squad_value + injuries + h2h - 1| →
      Engine.set_weights e elo xg squad_value injuries h2h
        = Except.error ConfigError.invalidWeights) ∧
    (|elo + xg + squad_value + injuries + h2h - 1| ≤ 1/100 →
      Engine.set_weights e elo xg squad_value injuries h2h
        = Except.ok ⟨⟨elo, xg, squad_value, injuries, h2h⟩⟩) := by
  constructor
  · intro h
    simp only [Engine.set_weights, if_pos h]
  · intro h
    simp only [Engine.set_weights, if_neg (not_lt.mpr h)]

/-- C4 witness: a vector summing to 0.95 is rejected, one summing to 1.05 is
rejected, and the default vector (sum 1.00) is accepted unchanged. -/
theorem set_weights_validation_witness :
    Engine.set_weights ⟨default_weights⟩ (35/100) (30/100) (15/100) (10/100) (5/100)
      = Except.error ConfigError.invalidWeights ∧
    Engine.set_weights ⟨default_weights⟩ (35/100) (30/100) (15/100) (10/100) (15/100)
      = Except.error ConfigError.invalidWeights ∧
    Engine.set_weights ⟨default_weights⟩ (35/100) (30/100) (15/100) (10/100) (10/100)
      = Except.ok ⟨⟨35/100, 30/100, 15/100, 10/100, 10/100⟩⟩ :=
  ⟨(set_weights_validation ⟨default_weights⟩ _ _ _ _ _).1 (by norm_num [lt_abs]),
   (set_weights_validation ⟨default_weights⟩ _ _ _ _ _).1 (by norm_num [lt_abs]),
   (set_weights_validation ⟨default_weights⟩ _ _ _ _ _).2 (by norm_num [abs_sub_le_iff])⟩

/-- C7: the injury penalty is `min(count · max_impact/5, max_impact)`;
it is 0 at 0 injuries, exactly `max_impact` at 5, still exactly `max_impact`
at any count ≥ 5 (e.g. 10), and never exceeds `max_impact`. -/
theorem injury_penalty_spec (home_injuries away_injuries : ℕ) (max_impact : ℝ)
    (h : 0 ≤ max_impact) :
    (calculate_injury_impact home_injuries away_injuries max_impact).1
      = min (home_injuries * (max_impact / 5)) max_impact ∧
    (calculate_injury_impact home_injuries away_injuries max_impact).2
      = min (away_injuries * (max_impact / 5)) max_impact ∧
    (calculate_injury_impact 0 away_injuries max_impact).1 = 0 ∧
    (calculate_injury_impact 5 away_injuries max_impact).1 = max_impact ∧
    (5 ≤ home_injuries →
      (calculate_injury_impact home_injuries away_injuries max_impact).1 = max_impact) ∧
    (calculate_injury_impact home_injuries away_injuries max_impact).1 ≤ max_impact := by
  refine ⟨rfl, rfl, ?_, ?_, ?_, min_le_right _ _⟩
  · simp [calculate_injury_impact, h]
  · show min (((5:ℕ) : ℝ) * (max_impact / 5)) max_impact = max_impact
    rw [show (((5:ℕ) : ℝ)) * (max_impact / 5) = max_impact by push_cast; ring, min_self]
  · intro h5
    have h5' : (5 : ℝ) ≤ (home_injuries : ℕ) := by exact_mod_cast h5
    have : max_impact ≤ home_injuries * (max_impact / 5) := by
      have := mul_le_mul_of_nonneg_right h5' (by positivity : (0:ℝ) ≤ max_impact / 5)
      linarith
    simp [calculate_injury_impact, min_eq_right this]

/-- C7 witness: with `max_impact = 0.15`, 10 injuries still give exactly 0.15. -/
theorem injury_penalty_spec_witness :
    (0 : ℝ) ≤ 15/100 ∧
    (calculate_injury_impact 10 0 (15/100)).1 = 15/100 ∧
    (calculate_injury_impact 0 0 (15/100)).1 = 0 :=
  ⟨by norm_num,
   (injury_penalty_spec 10 0 (15/100) (by norm_num)).2.2.2.2.1 (by norm_num),
   (injury_penalty_spec 0 0 (15/100) (by norm_num)).2.2.1⟩

/-- One row of the head-to-head DataFrame. -/
structure H2HMatch where
  homeTeam : String
  awayTeam : String
  homeGoals : ℤ
  awayGoals : ℤ
  deriving DecidableEq

/-- The win/draw counting loop inside `calculate_h2h_strength`
(accumulator `(home_wins, away_wins, draws)`). -/
def h2h_counts (home_team : String) (rows : List H2HMatch) : ℕ × ℕ × ℕ :=
  rows.foldl
    (fun acc m =>
      if m.homeTeam = home_team then
        if m.homeGoals > m.awayGoals then (acc.1 + 1, acc.2.1, acc.2.2)
        else if m.homeGoals < m.awayGoals then (acc.1, acc.2.1 + 1, acc.2.2)
        else (acc.1, acc.2.1, acc.2.2 + 1)
      else
        if m.awayGoals > m.homeGoals then (acc.1 + 1, acc.2.1, acc.2.2)
        else if m.awayGoals < m.homeGoals then (acc.1, acc.2.1 + 1, acc.2.2)
        else (acc.1, acc.2.1, acc.2.2 + 1))
    (0, 0, 0)

/-- `BundesligaPredictionEngine.calculate_h2h_strength`
(`away_team` is accepted but, as in the source, never consulted). -/
noncomputable def calculate_h2h_strength (h2h_data : List H2HMatch)
    (home_team away_team : String) : ℝ × ℝ :=
  if h2h_data = [] then (1/2, 1/2)
  else
    let counts := h2h_counts home_team h2h_data
    let home_points : ℝ := counts.1 + (1/2) * counts.2.2
    let away_points : ℝ := counts.2.1 + (1/2) * counts.2.2
    let total_points := home_points + away_points
    if total_points = 0 then (1/2, 1/2)
    else (home_points / total_points, away_points / total_points)

/-- Per-team factor data passed to `predict_match`
(the source reads these from `home_data` / `away_data` dicts). -/
structure TeamData where
  elo : ℝ
  xg_for : ℝ
  xg_against : ℝ
  squad_value : ℝ
  injuries : ℕ

/-- The weighted combination, injury penalties and renormalization of
`predict_match` (lines 235–287): the normalized
`(combined_home, combined_away)` pair. -/
noncomputable def combined_strengths (w : Weights) (home_data away_data : TeamData)
    (h2h_matches : List H2HMatch) (home_team away_team : String) : ℝ × ℝ :=
  let elo_s := calculate_elo_strength home_data.elo away_data.elo
  let xg_s := calculate_xg_strength home_data.xg_for home_data.xg_against
    away_data.xg_for away_data.xg_against
  let value_s := calculate_value_strength home_data.squad_value away_data.squad_value
  let injury_s := calculate_injury_impact home_data.injuries away_data.injuries
  let h2h_s := calculate_h2h_strength h2h_matches home_team away_team
  let combined_home :=
    (w.elo * elo_s.1 + w.xg * xg_s.1 + w.squad_value * value_s.1 + w.h2h * h2h_s.1)
      * (1 - injury_s.1)
  let combined_away :=
    (w.elo * elo_s.2 + w.xg * xg_s.2 + w.squad_value * value_s.2 + w.h2h * h2h_s.2)
      * (1 - injury_s.2)
  let total := combined_home + combined_away
  if 0 < total then (combined_home / total, combined_away / total)
  else (combined_home, combined_away)

/-- The lambda derivation of `predict_match` (lines 289–293):
`home_lambda = 1.5 · (combined_home/combined_away) · 1.3`,
`away_lambda = 1.5 · (combined_away/combined_home)`.
A zero divisor raises `ZeroDivisionError` in Python, modelled as `none`
(the first division, by `combined_away`, is evaluated first). -/
noncomputable def predict_match_lambdas (w : Weights) (home_data away_data : TeamData)
    (h2h_matches : List H2HMatch) (home_team away_team : String) : Option (ℝ × ℝ) :=
  let c := combined_strengths w home_data away_data h2h_matches home_team away_team
  let base_goals : ℝ := 3/2
  if c.2 = 0 then none
  else if c.1 = 0 then none
  else some (base_goals * (c.1 / c.2) * (13/10), base_goals * (c.2 / c.1))

/-! ## Odds converter (`src/data_sources/betting_odds.py`) -/

/-- `BettingOddsProvider._probability_to_lambda`. -/
noncomputable def probability_to_lambda (home_prob draw_prob away_prob : ℝ) : ℝ × ℝ :=
  let avg_home : ℝ := 17/10
  let avg_away : ℝ := 7/5
  let home_advantage := home_prob - away_prob
  let home_lambda := avg_home + home_advantage * (12/10)
  let away_lambda := avg_away - home_advantage * (12/10)
  let compressed :=
    if 1/4 < draw_prob then
      let mean_lambda := (home_lambda + away_lambda) / 2
      (mean_lambda + (home_lambda - mean_lambda) * (7/10),
       mean_lambda + (away_lambda - mean_lambda) * (7/10))
    else (home_lambda, away_lambda)
  (max (1/2) (min (7/2) compressed.1), max (1/2) (min 3 compressed.2))

/-- C6 (amended): the ELO strength pair always sums to 1; the xG strength
pair sums to 1 whenever the pre-normalization total is positive (with all
four xG inputs 0 the source skips normalization and returns (0,0)); the
squad-value strength pair sums to 1 for all non-negative inputs, including
both values 0. -/
theorem strength_pair_sum_one (home_elo away_elo hxf hxa axf axa hv av : ℝ) :
    (calculate_elo_strength home_elo away_elo).1
      + (calculate_elo_strength home_elo away_elo).2 = 1 ∧
    (0 < (hxf + axa) / 2 + (axf + hxa) / 2 →
      (calculate_xg_strength hxf hxa axf axa).1
        + (calculate_xg_strength hxf hxa axf axa).2 = 1) ∧
    (0 ≤ hv → 0 ≤ av →
      (calculate_value_strength hv av).1 + (calculate_value_strength hv av).2 = 1) := by
  refine ⟨?_, ?_, ?_⟩
  · simp only [calculate_elo_strength]
    ring
  · intro h
    simp only [calculate_xg_strength, if_pos h]
    field_simp
    exact div_self (ne_of_gt (by linarith))
  · intro h1 h2
    by_cases ht : hv + av = 0
    · simp [calculate_value_strength, ht]
      norm_num
    · simp only [calculate_value_strength, if_neg ht]
      field_simp

/-- C6 counterexample: with every xG input equal to 0 (an edge case the claim
explicitly includes), `calculate_xg_strength` returns (0, 0), whose sum is 0,
not 1. -/
theorem xg_strength_zero_counterexample :
    calculate_xg_strength 0 0 0 0 = (0, 0) ∧
    (calculate_xg_strength 0 0 0 0).1 + (calculate_xg_strength 0 0 0 0).2 ≠ 1 := by
  have h : calculate_xg_strength 0 0 0 0 = (0, 0) := by
    simp [calculate_xg_strength]
  refine ⟨h, ?_⟩
  rw [h]
  norm_num

/-- C6 witness: normalized xG pair at all-1.5 inputs and value pair at
(1, 0) both sum to 1. -/
theorem strength_pair_sum_one_witness :
    ((0:ℝ) < (3/2 + 3/2) / 2 + (3/2 + 3/2) / 2) ∧
    (calculate_xg_strength (3/2) (3/2) (3/2) (3/2)).1
      + (calculate_xg_strength (3/2) (3/2) (3/2) (3/2)).2 = 1 ∧
    (calculate_value_strength 1 0).1 + (calculate_value_strength 1 0).2 = 1 :=
  ⟨by norm_num,
   (strength_pair_sum_one 0 0 (3/2) (3/2) (3/2) (3/2) 1 0).2.1 (by norm_num),
   (strength_pair_sum_one 0 0 (3/2) (3/2) (3/2) (3/2) 1 0).2.2 (by norm_num) (by norm_num)⟩

/-- C10: whenever the engine's lambda derivation produces a pair, the product
of the two lambdas is exactly 1.5² · 1.3 = 2.925 = 117/40, regardless of the
weights and of every factor input; only the home/away split varies. -/
theorem lambda_product_invariant (w : Weights) (home_data away_data : TeamData)
    (h2h_matches : List H2HMatch) (home_team away_team : String) (hl al : ℝ)
    (h : predict_match_lambdas w home_data away_data h2h_matches home_team away_team
          = some (hl, al)) :
    hl * al = 117/40 := by
  unfold predict_match_lambdas at h
  set c := combined_strengths w home_data away_data h2h_matches home_team away_team
    with hc
  by_cases h2 : c.2 = 0
  · simp [h2] at h
  · by_cases h1 : c.1 = 0
    · simp [h2, h1] at h
    · rw [if_neg h2, if_neg h1] at h
      injection h with h'
      injection h' with h3 h4
      rw [← h3, ← h4]
      field_simp
      ring

/-- C10 witness: a fully symmetric input yields lambdas (1.95, 1.5), whose
product is 2.925. -/
theorem lambda_product_invariant_witness :
    predict_match_lambdas default_weights ⟨1500, 3/2, 3/2, 100000000, 0⟩
        ⟨1500, 3/2, 3/2, 100000000, 0⟩ [] "H" "A" = some (39/20, 3/2) ∧
    (39/20 : ℝ) * (3/2) = 117/40 := by
  have helo : calculate_elo_strength 1500 1500 = (1/2, 1/2) := by
    simp only [calculate_elo_strength]
    norm_num [Real.rpow_zero]
  have hxg : calculate_xg_strength (3/2) (3/2) (3/2) (3/2) = (1/2, 1/2) := by
    simp only [calculate_xg_strength]
    norm_num
  have hv : calculate_value_strength 100000000 100000000 = (1/2, 1/2) := by
    simp only [calculate_value_strength]
    norm_num
  have hinj : calculate_injury_impact 0 0 = (0, 0) := by
    simp only [calculate_injury_impact]
    norm_num
  have hh2h : calculate_h2h_strength [] "H" "A" = (1/2, 1/2) := by
    simp [calculate_h2h_strength]
  have hc : combined_strengths default_weights ⟨1500, 3/2, 3/2, 100000000, 0⟩
      ⟨1500, 3/2, 3/2, 100000000, 0⟩ [] "H" "A" = (1/2, 1/2) := by
    simp only [combined_strengths, helo, hxg, hv, hinj, hh2h, default_weights]
    norm_num
  have heval : predict_match_lambdas default_weights ⟨1500, 3/2, 3/2, 100000000, 0⟩
      ⟨1500, 3/2, 3/2, 100000000, 0⟩ [] "H" "A" = some (39/20, 3/2) := by
    simp only [predict_match_lambdas, hc]
    norm_num
  exact ⟨heval, lambda_product_invariant default_weights _ _ [] "H" "A" _ _ heval⟩

/-- C3 (amended): the odds-derived lambdas of `probability_to_lambda` are
clamped into [0.5, 3.5] × [0.5, 3.0], hence strictly positive, for every
probability triple; the engine's strength-ratio lambdas in `predict_match`
receive no clamping at all, but both are strictly positive whenever both
combined strengths are positive (as holds under the default non-negative
weights). -/
theorem lambda_positivity (home_prob draw_prob away_prob : ℝ) (w : Weights)
    (home_data away_data : TeamData) (h2h_matches : List H2HMatch)
    (home_team away_team : String) :
    (1/2 ≤ (probability_to_lambda home_prob draw_prob away_prob).1 ∧
     (probability_to_lambda home_prob draw_prob away_prob).1 ≤ 7/2 ∧
     1/2 ≤ (probability_to_lambda home_prob draw_prob away_prob).2 ∧
     (probability_to_lambda home_prob draw_prob away_prob).2 ≤ 3) ∧
    (∀ hl al : ℝ,
      0 < (combined_strengths w home_data away_data h2h_matches home_team away_team).1 →
      0 < (combined_strengths w home_data away_data h2h_matches home_team away_team).2 →
      predict_match_lambdas w home_data away_data h2h_matches home_team away_team
        = some (hl, al) →
      0 < hl ∧ 0 < al) := by
  constructor
  · simp only [probability_to_lambda]
    refine ⟨le_max_left _ _, max_le (by norm_num) (min_le_left _ _),
      le_max_left _ _, max_le (by norm_num) (min_le_left _ _)⟩
  · intro hl al hc1 hc2 h
    unfold predict_match_lambdas at h
    rw [if_neg (ne_of_gt hc2), if_neg (ne_of_gt hc1)] at h
    injection h with h'
    injection h' with h3 h4
    constructor
    · rw [← h3]
      have := div_pos hc1 hc2
      positivity
    · rw [← h4]
      have := div_pos hc2 hc1
      positivity

/-- C3 witness: the odds bounds at the triple (0.8, 0.1, 0.1), and strictly
positive engine lambdas at a symmetric input with positive combined
strengths. -/
theorem lambda_positivity_witness :
    (1/2 ≤ (probability_to_lambda (8/10) (1/10) (1/10)).1 ∧
     (probability_to_lambda (8/10) (1/10) (1/10)).1 ≤ 7/2 ∧
     1/2 ≤ (probability_to_lambda (8/10) (1/10) (1/10)).2 ∧
     (probability_to_lambda (8/10) (1/10) (1/10)).2 ≤ 3) ∧
    ((0:ℝ) < 39/20 ∧ (0:ℝ) < 3/2) := by
  have helo : calculate_elo_strength 1500 1500 = (1/2, 1/2) := by
    simp only [calculate_elo_strength]
    norm_num [Real.rpow_zero]
  have hxg : calculate_xg_strength (3/2) (3/2) (3/2) (3/2) = (1/2, 1/2) := by
    simp only [calculate_xg_strength]
    norm_num
  have hv : calculate_value_strength 100000000 100000000 = (1/2, 1/2) := by
    simp only [calculate_value_strength]
    norm_num
  have hinj : calculate_injury_impact 0 0 = (0, 0) := by
    simp only [calculate_injury_impact]
    norm_num
  have hh2h : calculate_h2h_strength [] "X" "Y" = (1/2, 1/2) := by
    simp [calculate_h2h_strength]
  have hc : combined_strengths default_weights ⟨1500, 3/2, 3/2, 100000000, 0⟩
      ⟨1500, 3/2, 3/2, 100000000, 0⟩ [] "X" "Y" = (1/2, 1/2) := by
    simp only [combined_strengths, helo, hxg, hv, hinj, hh2h, default_weights]
    norm_num
  have heval : predict_match_lambdas default_weights ⟨1500, 3/2, 3/2, 100000000, 0⟩
      ⟨1500, 3/2, 3/2, 100000000, 0⟩ [] "X" "Y" = some (39/20, 3/2) := by
    simp only [predict_match_lambdas, hc]
    norm_num
  exact ⟨(lambda_positivity (8/10) (1/10) (1/10) default_weights
      ⟨1500, 3/2, 3/2, 100000000, 0⟩ ⟨1500, 3/2, 3/2, 100000000, 0⟩ [] "X" "Y").1,
    (lambda_positivity (8/10) (1/10) (1/10) default_weights
      ⟨1500, 3/2, 3/2, 100000000, 0⟩ ⟨1500, 3/2, 3/2, 100000000, 0⟩ [] "X" "Y").2
      (39/20) (3/2) (by rw [hc]; norm_num) (by rw [hc]; norm_num) heval⟩

/-- C3 counterexample: `set_weights` accepts the vector (−1, 2, 0, 0, 0)
(it sums to 1), and with it the engine derives a strictly NEGATIVE home
lambda −0.65 (and away lambda −4.5) that is passed to the goal model —
no clamping to a positive minimum happens in `predict_match`. -/
theorem engine_lambda_negative_counterexample :
    Engine.set_weights ⟨default_weights⟩ (-1) 2 0 0 0
      = Except.ok ⟨⟨-1, 2, 0, 0, 0⟩⟩ ∧
    predict_match_lambdas ⟨-1, 2, 0, 0, 0⟩ ⟨1500, 0, 1, 100000000, 0⟩
        ⟨1500, 1, 0, 100000000, 0⟩ [] "H" "A" = some (-(13/20), -(9/2)) ∧
    (-(13/20) : ℝ) < 0 := by
  refine ⟨?_, ?_, by norm_num⟩
  · simp only [Engine.set_weights]
    norm_num
  · have helo : calculate_elo_strength 1500 1500 = (1/2, 1/2) := by
      simp only [calculate_elo_strength]
      norm_num [Real.rpow_zero]
    have hxg : calculate_xg_strength 0 1 1 0 = (0, 1) := by
      simp only [calculate_xg_strength]
      norm_num
    have hv : calculate_value_strength 100000000 100000000 = (1/2, 1/2) := by
      simp only [calculate_value_strength]
      norm_num
    have hinj : calculate_injury_impact 0 0 = (0, 0) := by
      simp only [calculate_injury_impact]
      norm_num
    have hh2h : calculate_h2h_strength [] "H" "A" = (1/2, 1/2) := by
      simp [calculate_h2h_strength]
    have hc : combined_strengths ⟨-1, 2, 0, 0, 0⟩ ⟨1500, 0, 1, 100000000, 0⟩
        ⟨1500, 1, 0, 100000000, 0⟩ [] "H" "A" = (-(1/2), 3/2) := by
      simp only [combined_strengths, helo, hxg, hv, hinj, hh2h]
      norm_num
    simp only [predict_match_lambdas, hc]
    norm_num

/-! ## Poisson goal model (`src/models/poisson_model.py`) -/

/-- `PoissonMatchPredictor.max_goals` (fixed to 10 in `__init__`). -/
def max_goals : ℕ := 10

/-- `PoissonMatchPredictor.poisson_probability` (scipy `poisson.pmf`):
`e^{-λ} λ^k / k!`. -/
noncomputable def poisson_pmf (lambda_param : ℝ) (k : ℕ) : ℝ :=
  Real.exp (-lambda_param) * lambda_param ^ k / (k.factorial : ℝ)

/-- scipy `poisson.cdf`, evaluated at an integer point (0 below the support). -/
noncomputable def poisson_cdf (lambda_param : ℝ) (k : ℤ) : ℝ :=
  if k < 0 then 0
  else ∑ i in Finset.range (k.toNat + 1), poisson_pmf lambda_param i

/-- Python's `int(x)` on a float: truncation toward zero. -/
noncomputable def python_int (x : ℝ) : ℤ :=
  if 0 ≤ x then ⌊x⌋ else ⌈x⌉

/-- Result dict of `calculate_over_under`. -/
structure OverUnderResult where
  threshold : ℝ
  total_lambda : ℝ
  over_prob : ℝ
  under_prob : ℝ

/-- `PoissonMatchPredictor.calculate_over_under`: aggregate-Poisson split at
`int(threshold)` (the dead loop over `total_goals` in the source has no
effect and is omitted). -/
noncomputable def calculate_over_under (home_lambda away_lambda : ℝ)
    (threshold : ℝ := 5/2) : OverUnderResult :=
  let total_lambda := home_lambda + away_lambda
  let over_prob := 1 - poisson_cdf total_lambda (python_int threshold)
  let under_prob := poisson_cdf total_lambda (python_int threshold)
  ⟨threshold, total_lambda, over_prob, under_prob⟩

/-- C9: for positive lambdas and positive threshold, `calculate_over_under`
returns `under_prob` equal to the Poisson CDF of `home_lambda + away_lambda`
at `⌊threshold⌋`, `over_prob` equal to its complement, and the two sum to 1
exactly. -/
theorem over_under_spec (home_lambda away_lambda threshold : ℝ)
    (hh : 0 < home_lambda) (ha : 0 < away_lambda) (ht : 0 < threshold) :
    (calculate_over_under home_lambda away_lambda threshold).under_prob
      = poisson_cdf (home_lambda + away_lambda) ⌊threshold⌋ ∧
    (calculate_over_under home_lambda away_lambda threshold).over_prob
      = 1 - poisson_cdf (home_lambda + away_lambda) ⌊threshold⌋ ∧
    (calculate_over_under home_lambda away_lambda threshold).over_prob
      + (calculate_over_under home_lambda away_lambda threshold).under_prob = 1 := by
  have hint : python_int threshold = ⌊threshold⌋ := by
    simp [python_int, le_of_lt ht]
  refine ⟨?_, ?_, ?_⟩
  · simp [calculate_over_under, hint]
  · simp [calculate_over_under, hint]
  · simp [calculate_over_under]

/-- C9 witness at lambdas (1, 1) and threshold 2.5. -/
theorem over_under_spec_witness :
    (calculate_over_under 1 1 (5/2)).under_prob = poisson_cdf (1 + 1) ⌊(5/2 : ℝ)⌋ ∧
    (calculate_over_under 1 1 (5/2)).over_prob
      = 1 - poisson_cdf (1 + 1) ⌊(5/2 : ℝ)⌋ ∧
    (calculate_over_under 1 1 (5/2)).over_prob
      + (calculate_over_under 1 1 (5/2)).under_prob = 1 :=
  over_under_spec 1 1 (5/2) (by norm_num) (by norm_num) (by norm_num)

/-- Cell (hg, ag) of the `predict_match_simple` score table:
`Poisson(hg; home_lambda) · Poisson(ag; away_lambda)`. -/
noncomputable def score_prob (home_lambda away_lambda : ℝ) (hg ag : ℕ) : ℝ :=
  poisson_pmf home_lambda hg * poisson_pmf away_lambda ag

/-- Index set of the `(max_goals+1) × (max_goals+1)` score table. -/
def score_grid : Finset (ℕ × ℕ) :=
  Finset.range (max_goals + 1) ×ˢ Finset.range (max_goals + 1)

/-- `home_win_prob` of `predict_match_simple`: `np.sum(np.tril(probabilities, -1))`,
the cells with home goals > away goals. -/
noncomputable def home_win_prob (home_lambda away_lambda : ℝ) : ℝ :=
  ∑ p in score_grid.filter (fun p => p.2 < p.1),
    score_prob home_lambda away_lambda p.1 p.2

/-- `draw_prob` of `predict_match_simple`: the trace of the table. -/
noncomputable def draw_prob (home_lambda away_lambda : ℝ) : ℝ :=
  ∑ p in score_grid.filter (fun p => p.1 = p.2),
    score_prob home_lambda away_lambda p.1 p.2

/-- `away_win_prob` of `predict_match_simple`: `np.sum(np.triu(probabilities, 1))`. -/
noncomputable def away_win_prob (home_lambda away_lambda : ℝ) : ℝ :=
  ∑ p in score_grid.filter (fun p => p.1 < p.2),
    score_prob home_lambda away_lambda p.1 p.2

/-- The total mass of the truncated score table. -/
noncomputable def table_sum (home_lambda away_lambda : ℝ) : ℝ :=
  ∑ p in score_grid, score_prob home_lambda away_lambda p.1 p.2

/-- One side's truncated Poisson mass `∑_{k ≤ max_goals} pmf(λ, k)`. -/
noncomputable def trunc_cdf (lambda_param : ℝ) : ℝ :=
  ∑ k in Finset.range (max_goals + 1), poisson_pmf lambda_param k

/-- The three outcome sums exactly partition the truncated score table. -/
theorem win_draw_loss_partition (hl al : ℝ) :
    home_win_prob hl al + draw_prob hl al + away_win_prob hl al = table_sum hl al := by
  classical
  unfold home_win_prob draw_prob away_win_prob table_sum
  rw [← Finset.sum_filter_add_sum_filter_not score_grid (fun p => p.2 < p.1)
    (fun p => score_prob hl al p.1 p.2)]
  have e1 : (score_grid.filter (fun p => ¬ p.2 < p.1)).filter (fun p => p.1 = p.2)
      = score_grid.filter (fun p => p.1 = p.2) := by
    rw [Finset.filter_filter]
    apply Finset.filter_congr
    intro p _
    constructor
    · rintro ⟨_, h⟩; exact h
    · intro h; exact ⟨by omega, h⟩
  have e2 : (score_grid.filter (fun p => ¬ p.2 < p.1)).filter (fun p => ¬ p.1 = p.2)
      = score_grid.filter (fun p => p.1 < p.2) := by
    rw [Finset.filter_filter]
    apply Finset.filter_congr
    intro p _
    constructor
    · rintro ⟨h1, h2⟩; omega
    · intro h; exact ⟨by omega, by omega⟩
  rw [← Finset.sum_filter_add_sum_filter_not
    (score_grid.filter (fun p => ¬ p.2 < p.1)) (fun p => p.1 = p.2)
    (fun p => score_prob hl al p.1 p.2), e1, e2]
  ring

/-- The truncated table factors into the two one-sided truncated masses. -/
theorem table_sum_factor (hl al : ℝ) :
    table_sum hl al = trunc_cdf hl * trunc_cdf al := by
  unfold table_sum trunc_cdf score_grid score_prob
  rw [Finset.sum_product]
  rw [Finset.sum_mul_sum]

/-- The 11-term exponential Taylor sum in closed polynomial form. -/
theorem sum_pmf_poly (x : ℝ) :
    ∑ k in Finset.range 11, x ^ k / (k.factorial : ℝ)
      = 1 + x + x^2/2 + x^3/6 + x^4/24 + x^5/120 + x^6/720 + x^7/5040
        + x^8/40320 + x^9/362880 + x^10/3628800 := by
  simp [Finset.sum_range_succ, Nat.factorial]

/-- `trunc_cdf` as `e^{-λ}` times the Taylor sum. -/
theorem trunc_cdf_eq (lam : ℝ) :
    trunc_cdf lam
      = Real.exp (-lam) * ∑ k in Finset.range 11, lam ^ k / (k.factorial : ℝ) := by
  unfold trunc_cdf poisson_pmf max_goals
  rw [Finset.mul_sum]
  apply Finset.sum_congr rfl
  intro k _
  rw [mul_div_assoc]

/-- Polynomial core of the tail bound: the squared degree-11 upper Taylor
polynomial of `e^{λ/2}` exceeds the degree-10 Taylor sum of `e^{λ}` by at
most `7·10⁻⁵ (λ/2)^{11}` on `[0, 2]`. -/
theorem exp_taylor_sq_le (lam : ℝ) (h0 : 0 ≤ lam) (h2 : lam ≤ 2) :
    (1 + lam/2 + (lam/2)^2/2 + (lam/2)^3/6 + (lam/2)^4/24 + (lam/2)^5/120
      + (lam/2)^6/720 + (lam/2)^7/5040 + (lam/2)^8/40320 + (lam/2)^9/362880
      + (lam/2)^10/3628800 + (lam/2)^11 * 12 / 439084800)
    * (1 + lam/2 + (lam/2)^2/2 + (lam/2)^3/6 + (lam/2)^4/24 + (lam/2)^5/120
      + (lam/2)^6/720 + (lam/2)^7/5040 + (lam/2)^8/40320 + (lam/2)^9/362880
      + (lam/2)^10/3628800 + (lam/2)^11 * 12 / 439084800)
    ≤ (1 + lam + lam^2/2 + lam^3/6 + lam^4/24 + lam^5/120 + lam^6/720 + lam^7/5040
      + lam^8/40320 + lam^9/362880 + lam^10/3628800) + (7/100000) * (lam/2)^11 := by
  have hm0 : (0:ℝ) ≤ lam/2 := by linarith
  have hm1 : lam/2 ≤ 1 := by linarith
  have h12 := pow_le_pow_of_le_one hm0 hm1 (show (11:ℕ) ≤ 12 by norm_num)
  have h13 := pow_le_pow_of_le_one hm0 hm1 (show (11:ℕ) ≤ 13 by norm_num)
  have h14 := pow_le_pow_of_le_one hm0 hm1 (show (11:ℕ) ≤ 14 by norm_num)
  have h15 := pow_le_pow_of_le_one hm0 hm1 (show (11:ℕ) ≤ 15 by norm_num)
  have h16 := pow_le_pow_of_le_one hm0 hm1 (show (11:ℕ) ≤ 16 by norm_num)
  have h17 := pow_le_pow_of_le_one hm0 hm1 (show (11:ℕ) ≤ 17 by norm_num)
  have h18 := pow_le_pow_of_le_one hm0 hm1 (show (11:ℕ) ≤ 18 by norm_num)
  have h19 := pow_le_pow_of_le_one hm0 hm1 (show (11:ℕ) ≤ 19 by norm_num)
  have h20 := pow_le_pow_of_le_one hm0 hm1 (show (11:ℕ) ≤ 20 by norm_num)
  have h21 := pow_le_pow_of_le_one hm0 hm1 (show (11:ℕ) ≤ 21 by norm_num)
  have h22 := pow_le_pow_of_le_one hm0 hm1 (show (11:ℕ) ≤ 22 by norm_num)
  have h11 := pow_nonneg hm0 11
  linarith [h12, h13, h14, h15, h16, h17, h18, h19, h20, h21, h22, h11]

/-- Tail bound: for `0 ≤ λ ≤ 2` the mass truncated away beyond `max_goals`
is at most `2·10⁻⁵`. -/
theorem trunc_cdf_tail_le (lam : ℝ) (h0 : 0 ≤ lam) (h2 : lam ≤ 2) :
    1 - trunc_cdf lam ≤ 2/100000 := by
  have hm0 : (0:ℝ) ≤ lam/2 := by linarith
  have hm1 : lam/2 ≤ 1 := by linarith
  have hQ := @Real.exp_bound' (lam/2) hm0 hm1 11 (by norm_num)
  rw [sum_pmf_poly (lam/2)] at hQ
  norm_num [Nat.factorial] at hQ
  have hS := Real.sum_le_exp_of_nonneg h0 11
  rw [sum_pmf_poly lam] at hS
  have hL := Real.add_one_le_exp (lam/2)
  have hE2 : Real.exp lam = Real.exp (lam/2) * Real.exp (lam/2) := by
    rw [← Real.exp_add]
    ring_nf
  have hpos : (0:ℝ) < Real.exp (lam/2) := Real.exp_pos _
  have hpoly := exp_taylor_sq_le lam h0 h2
  have hQQ := mul_self_le_mul_self hpos.le hQ
  have hsq := mul_self_le_mul_self (by linarith : (0:ℝ) ≤ lam/2 + 1) hL
  have haux : (7/100000) * (lam/2)^11 ≤ (2/100000) * ((lam/2 + 1) * (lam/2 + 1)) := by
    have hp2 := pow_le_pow_of_le_one hm0 hm1 (show (2:ℕ) ≤ 11 by norm_num)
    nlinarith [hp2, hm0, hm1]
  have key : (1 - 2/100000) * (Real.exp (lam/2) * Real.exp (lam/2))
      ≤ ∑ k in Finset.range 11, lam ^ k / (k.factorial : ℝ) := by
    rw [sum_pmf_poly lam]
    rw [hE2] at hS
    linarith [hQQ, hsq, haux, hpoly, hS]
  rw [trunc_cdf_eq]
  have hinv : Real.exp (-lam) = (Real.exp (lam/2) * Real.exp (lam/2))⁻¹ := by
    rw [← hE2, Real.exp_neg]
  rw [hinv]
  have hEE : (0:ℝ) < Real.exp (lam/2) * Real.exp (lam/2) := by positivity
  have hfin : (1 - 2/100000 : ℝ)
      ≤ (Real.exp (lam/2) * Real.exp (lam/2))⁻¹
        * ∑ k in Finset.range 11, lam ^ k / (k.factorial : ℝ) := by
    rw [← div_eq_inv_mul]
    exact (le_div_iff hEE).mpr key
  linarith

/-- The truncated mass is non-negative for non-negative lambda. -/
theorem trunc_cdf_nonneg (lam : ℝ) (h : 0 ≤ lam) : 0 ≤ trunc_cdf lam := by
  unfold trunc_cdf
  apply Finset.sum_nonneg
  intro k _
  unfold poisson_pmf
  apply div_nonneg (mul_nonneg (Real.exp_pos _).le (pow_nonneg h k)) (Nat.cast_nonneg _)

/-- The truncated mass never exceeds 1 for non-negative lambda. -/
theorem trunc_cdf_le_one (lam : ℝ) (h : 0 ≤ lam) : trunc_cdf lam ≤ 1 := by
  rw [trunc_cdf_eq, Real.exp_neg, ← div_eq_inv_mul, div_le_one (Real.exp_pos lam)]
  exact Real.sum_le_exp_of_nonneg h 11

/-- C1 (amended): for positive lambdas at most 2, the three outcome
probabilities of `predict_match_simple` exactly partition the truncated
11×11 joint Poisson table, the table factors as the product of the two
truncated one-sided masses, its total is at most 1, and the truncation bias
`1 − (home+draw+away)` is below 10⁻⁴.  (The original bound "below 10⁻⁴ for
lambdas under 5" fails: at λ = 4.9 the bias is ≈ 0.024.) -/
theorem prob_conservation (hl al : ℝ) (hhl0 : 0 < hl) (hhl2 : hl ≤ 2)
    (hal0 : 0 < al) (hal2 : al ≤ 2) :
    home_win_prob hl al + draw_prob hl al + away_win_prob hl al = table_sum hl al ∧
    table_sum hl al = trunc_cdf hl * trunc_cdf al ∧
    table_sum hl al ≤ 1 ∧
    1 - (home_win_prob hl al + draw_prob hl al + away_win_prob hl al) < 1/10000 := by
  have hp := win_draw_loss_partition hl al
  have hf := table_sum_factor hl al
  have h1h := trunc_cdf_le_one hl hhl0.le
  have h1a := trunc_cdf_le_one al hal0.le
  have h0h := trunc_cdf_nonneg hl hhl0.le
  have h0a := trunc_cdf_nonneg al hal0.le
  have hth := trunc_cdf_tail_le hl hhl0.le hhl2
  have hta := trunc_cdf_tail_le al hal0.le hal2
  refine ⟨hp, hf, ?_, ?_⟩
  · rw [hf]
    nlinarith [h1h, h1a, h0h, h0a]
  · rw [hp, hf]
    nlinarith [hth, hta, h1h, h1a, h0h, h0a]

/-- C1 witness at lambdas (1, 1). -/
theorem prob_conservation_witness :
    ((0:ℝ) < 1 ∧ (1:ℝ) ≤ 2) ∧
    (home_win_prob 1 1 + draw_prob 1 1 + away_win_prob 1 1 = table_sum 1 1 ∧
     table_sum 1 1 = trunc_cdf 1 * trunc_cdf 1 ∧
     table_sum 1 1 ≤ 1 ∧
     1 - (home_win_prob 1 1 + draw_prob 1 1 + away_win_prob 1 1) < 1/10000) :=
  ⟨⟨by norm_num, by norm_num⟩,
   prob_conservation 1 1 (by norm_num) (by norm_num) (by norm_num) (by norm_num)⟩

/-- C1 counterexample: at λ_home = λ_away = 4.9 — both under 5 — the
truncation bias `1 − (home+draw+away)` exceeds 10⁻⁴ (its true value is
≈ 0.024), refuting the claimed "< 1e-4 for both lambdas under 5". -/
theorem prob_conservation_counterexample :
    (49/10 : ℝ) < 5 ∧
    1/10000 < 1 - (home_win_prob (49/10) (49/10) + draw_prob (49/10) (49/10)
      + away_win_prob (49/10) (49/10)) := by
  refine ⟨by norm_num, ?_⟩
  rw [win_draw_loss_partition, table_sum_factor]
  have hLB : (∑ i in Finset.range 20, (49/5:ℝ)^i / (i.factorial : ℝ))
      ≤ Real.exp (49/5) := Real.sum_le_exp_of_nonneg (by norm_num) 20
  have hLBpos : (0:ℝ) < ∑ i in Finset.range 20, (49/5:ℝ)^i / (i.factorial : ℝ) := by
    apply Finset.sum_pos
    · intro i _
      positivity
    · exact ⟨0, Finset.mem_range.mpr (by norm_num)⟩
  have hinv : Real.exp (-(49/10:ℝ)) * Real.exp (-(49/10:ℝ)) = (Real.exp (49/5))⁻¹ := by
    rw [← Real.exp_add, ← Real.exp_neg]
    norm_num
  have hmono : (Real.exp (49/5))⁻¹
      ≤ (∑ i in Finset.range 20, (49/5:ℝ)^i / (i.factorial : ℝ))⁻¹ :=
    inv_le_inv_of_le hLBpos hLB
  have hsq : trunc_cdf (49/10) * trunc_cdf (49/10)
      = ((∑ k in Finset.range 11, (49/10:ℝ)^k / (k.factorial : ℝ))
        * (∑ k in Finset.range 11, (49/10:ℝ)^k / (k.factorial : ℝ)))
        * (Real.exp (49/5))⁻¹ := by
    rw [trunc_cdf_eq, ← hinv]
    ring
  have hbound : trunc_cdf (49/10) * trunc_cdf (49/10)
      ≤ ((∑ k in Finset.range 11, (49/10:ℝ)^k / (k.factorial : ℝ))
        * (∑ k in Finset.range 11, (49/10:ℝ)^k / (k.factorial : ℝ)))
        * (∑ i in Finset.range 20, (49/5:ℝ)^i / (i.factorial : ℝ))⁻¹ := by
    rw [hsq]
    apply mul_le_mul_of_nonneg_left hmono (by positivity)
  have hnum : ((∑ k in Finset.range 11, (49/10:ℝ)^k / (k.factorial : ℝ))
        * (∑ k in Finset.range 11, (49/10:ℝ)^k / (k.factorial : ℝ)))
        * (∑ i in Finset.range 20, (49/5:ℝ)^i / (i.factorial : ℝ))⁻¹
      < 9999/10000 := by
    norm_num [Finset.sum_range_succ, Nat.factorial]
  linarith
